import Mathlib

/-!
Verification of the cart/orders core of the storefront repository.

The development shallowly embeds the Redux cart slice
(`src/store/cart/cartSlice.js`), the orders slice
(`src/store/orders/ordersSlice.js`, reducers and selectors), and the
checkout handler of the cart page (`src/pages/CartPage.jsx`).

Modelling conventions:
- JS numbers used as money/quantities are modelled as `Int`; identifiers
  (product ids, user ids, order ids) as `Nat`; timestamps as `Nat`
  (a single instant `now` stands for both `Date.now()` and
  `new Date().toISOString()`, which encode the same clock reading).
- Immer "mutation" of the object returned by `Array.prototype.find`
  is modelled as replacing the first matching element of the list.
- `Array.prototype.sort` with comparator `(a, b) => keyB - keyA` is a
  stable descending sort by the key; it is modelled with Mathlib's
  insertion sort (also stable), which has the same extensional behaviour.
- Side effects that do not touch the modelled state (toast notifications,
  `localStorage` writes, `console` logging, navigation) are dropped; the
  branch structure around them is kept.
-/

namespace Shop

/-- A cart line item as stored by the cart slice (`cartSlice.js`,
`addToCart`): product id, display snapshot, quantity, and the timestamp
recorded in the `addedAt` field. -/
structure CartItem where
  id : Nat
  name : String
  price : Int
  quantity : Int
  imageUrl : String
  addedAt : Nat
deriving DecidableEq, Repr

/-- State of the cart slice: the `items` array and the stored `total`. -/
structure CartState where
  items : List CartItem
  total : Int
deriving DecidableEq, Repr

/-- `calculateTotal` (`cartSlice.js` lines 50-54): reduce over the items,
accumulating `price * quantity` starting from 0. -/
def calculateTotal (items : List CartItem) : Int :=
  items.foldl (fun sum item => sum + item.price * item.quantity) 0

/-- The cart slice's `initialState` (`cartSlice.js` lines 29-37): `items`
is the parsed `localStorage` payload, or `[]` when absent; `total` is the
literal `0`. -/
def cartInitialState (stored : Option (List CartItem)) : CartState :=
  { items := stored.getD [], total := 0 }

/-- Payload of the `addToCart` action: product data plus an optional
quantity. -/
structure AddPayload where
  id : Nat
  name : String
  price : Int
  imageUrl : String
  quantity : Option Int
deriving DecidableEq, Repr

/-- `action.payload.quantity || 1`: an absent quantity, and the falsy
quantity `0`, both resolve to the default `1`. -/
def resolveQuantity : Option Int → Int
  | none => 1
  | some q => if q = 0 then 1 else q

/-- Replace the first element satisfying `p` by its image under `f`
(the other elements are untouched). This models Immer mutation of the
object returned by `Array.prototype.find`. -/
def updateFirst (p : α → Bool) (f : α → α) : List α → List α
  | [] => []
  | x :: xs => if p x then f x :: xs else x :: updateFirst p f xs

/-- `addToCart` reducer (`cartSlice.js` lines 96-124): if an item with the
payload's `id` exists, increment its quantity; otherwise push a new item
with an `addedAt` timestamp. Then recompute `total`. -/
def addToCart (now : Nat) (payload : AddPayload) (state : CartState) : CartState :=
  let quantity := resolveQuantity payload.quantity
  let items :=
    if (state.items.find? (fun item => item.id == payload.id)).isSome then
      updateFirst (fun item => item.id == payload.id)
        (fun item => { item with quantity := item.quantity + quantity }) state.items
    else
      state.items ++ [{ id := payload.id, name := payload.name, price := payload.price,
                        quantity := quantity, imageUrl := payload.imageUrl, addedAt := now }]
  { items := items, total := calculateTotal items }

/-- `removeFromCart` reducer (`cartSlice.js` lines 135-153): if an item
with the given id is found, filter it out (otherwise the items are left
as they are); in both cases recompute `total`. -/
def removeFromCart (id : Nat) (state : CartState) : CartState :=
  let items :=
    if (state.items.find? (fun item => item.id == id)).isSome then
      state.items.filter (fun item => item.id != id)
    else
      state.items
  { items := items, total := calculateTotal items }

/-- `updateQuantity` reducer (`cartSlice.js` lines 164-188): a quantity
`≤ 0` removes the item; a positive quantity replaces the quantity of the
first item with the given id (no-op when absent); `total` is recomputed. -/
def updateQuantity (id : Nat) (quantity : Int) (state : CartState) : CartState :=
  let items :=
    if quantity ≤ 0 then
      state.items.filter (fun item => item.id != id)
    else
      updateFirst (fun item => item.id == id)
        (fun item => { item with quantity := quantity }) state.items
  { items := items, total := calculateTotal items }

/-- `clearCart` reducer (`cartSlice.js` lines 196-210): empty items,
total reset to 0. -/
def clearCart (_state : CartState) : CartState :=
  { items := [], total := 0 }

/-- One dispatched cart action, covering the four reducers of the cart
slice. -/
inductive CartAction where
  | add (now : Nat) (payload : AddPayload)
  | remove (id : Nat)
  | update (id : Nat) (quantity : Int)
  | clear
deriving DecidableEq, Repr

/-- Dispatch a single cart action against the cart state. -/
def applyCartAction : CartAction → CartState → CartState
  | .add now payload, s => addToCart now payload s
  | .remove id, s => removeFromCart id s
  | .update id q, s => updateQuantity id q s
  | .clear, s => clearCart s

example : (addToCart 0 ⟨1, "ring", 25, "u", some 2⟩ (cartInitialState none)).total = 50 := by
  decide

example : (addToCart 0 ⟨1, "ring", 25, "u", some 2⟩
    (addToCart 0 ⟨1, "ring", 25, "u", none⟩ (cartInitialState none))).items.length = 1 := by
  decide

/-- An order as stored by the orders slice. Statuses are strings, exactly
as in the JavaScript state, so that the slice's handling of unrecognized
statuses is representable. The optional timestamps are absent until the
corresponding transition happens. -/
structure Order where
  id : Nat
  userId : Nat
  items : List CartItem
  subtotal : Int
  shippingCost : Int
  total : Int
  createdAt : Nat
  status : String
  updatedAt : Option Nat := none
  shippedAt : Option Nat := none
  deliveredAt : Option Nat := none
deriving DecidableEq, Repr

/-- Payload accepted by the `addOrder` reducer: `createdAt` and `status`
may be absent (`addOrder` fills in defaults for falsy values). -/
structure OrderPayload where
  id : Nat
  userId : Nat
  items : List CartItem
  subtotal : Int
  shippingCost : Int
  total : Int
  createdAt : Option Nat
  status : Option String
deriving DecidableEq, Repr

/-- `a` sorts before `b` under the comparator
`(a, b) => new Date(b.createdAt) - new Date(a.createdAt)`: most recent
`createdAt` first. -/
def laterFirst (a b : Order) : Prop :=
  b.createdAt ≤ a.createdAt

instance : DecidableRel laterFirst := fun a b =>
  inferInstanceAs (Decidable (b.createdAt ≤ a.createdAt))

instance : IsTotal Order laterFirst :=
  ⟨fun a b => (Nat.le_total b.createdAt a.createdAt).imp id id⟩

instance : IsTrans Order laterFirst :=
  ⟨fun _ _ _ hab hbc => Nat.le_trans hbc hab⟩

/-- `orders.sort((a, b) => new Date(b.createdAt) - new Date(a.createdAt))`:
a stable descending sort on `createdAt`, modelled by (stable) insertion
sort. -/
def sortByCreatedAtDesc (orders : List Order) : List Order :=
  orders.insertionSort laterFirst

/-- `addOrder` reducer (`ordersSlice.js` lines 78-98): default `createdAt`
to the current time and `status` to `"pending"` when absent, push the
order, and re-sort the collection most-recent-first. -/
def addOrder (now : Nat) (payload : OrderPayload) (orders : List Order) : List Order :=
  let order : Order :=
    { id := payload.id, userId := payload.userId, items := payload.items,
      subtotal := payload.subtotal, shippingCost := payload.shippingCost,
      total := payload.total,
      createdAt := payload.createdAt.getD now,
      status := payload.status.getD "pending" }
  sortByCreatedAtDesc (orders ++ [order])

/-- The `validTransitions` lookup table of `updateOrderStatus`
(`ordersSlice.js` lines 119-125); `none` models the `undefined` result of
indexing the object with an unrecognized status. -/
def validTransitions (status : String) : Option (List String) :=
  if status = "pending" then some ["processing", "cancelled"]
  else if status = "processing" then some ["shipped", "cancelled"]
  else if status = "shipped" then some ["delivered"]
  else if status = "delivered" then some []
  else if status = "cancelled" then some []
  else none

/-- Outcome of an `updateOrderStatus` dispatch: the `updated` branch, the
`console.warn("Invalid status transition …")` branch, and the
`console.error("Order not found …")` branch. -/
inductive UpdateResult where
  | updated
  | invalidTransition
  | orderNotFound
deriving DecidableEq, Repr

/-- The mutation applied by `updateOrderStatus` on an allowed update
(`ordersSlice.js` lines 131-140): set `status` and `updatedAt = now`, and
additionally `shippedAt` when entering `shipped`, or `deliveredAt` when
entering `delivered`. -/
def updOrder (now : Nat) (status : String) (order : Order) : Order :=
  let base := { order with status := status, updatedAt := some now }
  if status = "shipped" then { base with shippedAt := some now }
  else if status = "delivered" then { base with deliveredAt := some now }
  else base

/-- `updateOrderStatus` reducer (`ordersSlice.js` lines 111-147): find the
order; when found, allow the update if the transition is listed for the
current status, or if the current status is unrecognized
(`!validTransitions[currentStatus]`); an allowed update rewrites the found
order by `updOrder`. Otherwise leave the collection untouched (the code
logs `console.warn` / `console.error` on the two failure branches). -/
def updateOrderStatus (now : Nat) (orderId : Nat) (status : String)
    (orders : List Order) : List Order × UpdateResult :=
  match orders.find? (fun order => order.id == orderId) with
  | none => (orders, .orderNotFound)
  | some order =>
    let isValidTransition :=
      match validTransitions order.status with
      | some allowed => decide (status ∈ allowed)
      | none => false
    if isValidTransition || (validTransitions order.status).isNone then
      (updateFirst (fun o => o.id == orderId) (fun _ => updOrder now status order) orders,
        .updated)
    else
      (orders, .invalidTransition)

/-- `clearOrders` reducer (`ordersSlice.js` lines 157-161). -/
def clearOrders (_orders : List Order) : List Order := []

/-- `selectUserOrders` (`ordersSlice.js` lines 194-198): filter by
`userId`, then sort the filtered copy most-recent-first. -/
def selectUserOrders (userId : Nat) (orders : List Order) : List Order :=
  sortByCreatedAtDesc (orders.filter (fun order => order.userId == userId))

/-- `selectOrdersByStatus` (`ordersSlice.js` lines 221-223). -/
def selectOrdersByStatus (status : String) (orders : List Order) : List Order :=
  orders.filter (fun order => order.status == status)

/-- Aggregate returned by `selectOrderStats`. -/
structure OrderStats where
  total : Nat
  pending : Nat
  processing : Nat
  shipped : Nat
  delivered : Nat
  cancelled : Nat
  totalRevenue : Int
deriving DecidableEq, Repr

/-- `selectOrderStats` (`ordersSlice.js` lines 253-267): counts per status
plus `totalRevenue`, the sum of `total` over non-cancelled orders. -/
def selectOrderStats (orders : List Order) : OrderStats :=
  { total := orders.length,
    pending := (orders.filter (fun o => o.status == "pending")).length,
    processing := (orders.filter (fun o => o.status == "processing")).length,
    shipped := (orders.filter (fun o => o.status == "shipped")).length,
    delivered := (orders.filter (fun o => o.status == "delivered")).length,
    cancelled := (orders.filter (fun o => o.status == "cancelled")).length,
    totalRevenue := (orders.filter (fun o => o.status != "cancelled")).foldl
      (fun sum order => sum + order.total) 0 }

/-- Combined state seen by the cart page: the cart slice and the orders
slice's `orders` array. -/
structure AppState where
  cart : CartState
  orders : List Order
deriving DecidableEq, Repr

/-- Outcome of `handleCheckout`: redirect to the login page, the
empty-cart warning, or a placed order. -/
inductive CheckoutResult where
  | notLoggedIn
  | emptyCart
  | placed (order : Order)
deriving DecidableEq, Repr

/-- `handleCheckout` (`CartPage.jsx` lines 111-159): reject when no user
is logged in, warn and stop when the cart is empty; otherwise build the
order (`id = Date.now()`, fixed shipping cost 5, `subtotal` reduced from
the cart items, `total = subtotal + shippingCost`, `status = "pending"`,
`createdAt = now`), dispatch `addOrder` and then `clearCart`. -/
def handleCheckout (now : Nat) (user : Option Nat) (s : AppState) :
    AppState × CheckoutResult :=
  match user with
  | none => (s, .notLoggedIn)
  | some uid =>
    if s.cart.items.length = 0 then
      (s, .emptyCart)
    else
      let shippingCost : Int := 5
      let subtotal := s.cart.items.foldl (fun acc item => acc + item.price * item.quantity) 0
      let payload : OrderPayload :=
        { id := now, userId := uid, items := s.cart.items,
          subtotal := subtotal, shippingCost := shippingCost,
          total := subtotal + shippingCost,
          createdAt := some now, status := some "pending" }
      let orders := addOrder now payload s.orders
      let cart := clearCart s.cart
      ({ cart := cart, orders := orders },
       .placed { id := payload.id, userId := payload.userId, items := payload.items,
                 subtotal := payload.subtotal, shippingCost := payload.shippingCost,
                 total := payload.total, createdAt := now, status := "pending" })

/-! ### Helper lemmas -/

theorem foldl_add_eq_sum (f : α → Int) (l : List α) (a : Int) :
    l.foldl (fun acc x => acc + f x) a = a + (l.map f).sum := by
  induction l generalizing a with
  | nil => simp
  | cons x xs ih => simp [List.foldl_cons, ih, add_assoc]

theorem calculateTotal_eq_sum (l : List CartItem) :
    calculateTotal l = (l.map (fun item => item.price * item.quantity)).sum := by
  simpa using foldl_add_eq_sum (fun item => item.price * item.quantity) l 0

theorem updateFirst_map_key {p : α → Bool} {f : α → α} (key : α → β)
    (hf : ∀ a, p a = true → key (f a) = key a) (l : List α) :
    (updateFirst p f l).map key = l.map key := by
  induction l with
  | nil => rfl
  | cons x xs ih =>
    by_cases hx : p x = true
    · simp [updateFirst, hx, hf x hx]
    · simp [updateFirst, hx, ih]

theorem find?_updateFirst {p : α → Bool} {f : α → α} {l : List α} {x : α}
    (h : l.find? p = some x) (hf : p (f x) = true) :
    (updateFirst p f l).find? p = some (f x) := by
  induction l with
  | nil => simp at h
  | cons y ys ih =>
    by_cases hy : p y = true
    · rw [List.find?_cons_of_pos _ hy] at h
      cases h
      simp [updateFirst, hy, List.find?_cons_of_pos _ hf]
    · rw [List.find?_cons_of_neg _ hy] at h
      simp [updateFirst, hy, List.find?_cons_of_neg _ hy, ih h]

theorem updateFirst_of_find?_eq_none {p : α → Bool} {f : α → α} {l : List α}
    (h : l.find? p = none) : updateFirst p f l = l := by
  induction l with
  | nil => rfl
  | cons y ys ih =>
    by_cases hy : p y = true
    · rw [List.find?_cons_of_pos _ hy] at h
      exact absurd h (by simp)
    · rw [List.find?_cons_of_neg _ hy] at h
      simp [updateFirst, hy, ih h]

theorem nodup_ids_filter {l : List CartItem} (p : CartItem → Bool)
    (h : (l.map (fun item => item.id)).Nodup) :
    ((l.filter p).map (fun item => item.id)).Nodup :=
  ((List.filter_sublist (p := p) (l := l)).map (fun item => item.id)).nodup h

/-- Each cart reducer preserves the at-most-one-line-per-product invariant. -/
theorem nodup_ids_applyCartAction (a : CartAction) (s : CartState)
    (h : (s.items.map (fun item => item.id)).Nodup) :
    ((applyCartAction a s).items.map (fun item => item.id)).Nodup := by
  cases a with
  | add now payload =>
    simp only [applyCartAction, addToCart]
    by_cases hfind : (s.items.find? (fun item => item.id == payload.id)).isSome
    · rw [if_pos hfind,
        updateFirst_map_key (p := fun item : CartItem => item.id == payload.id)
          (f := fun item : CartItem =>
            { item with quantity := item.quantity + resolveQuantity payload.quantity })
          (fun item : CartItem => item.id) (fun _ _ => rfl)]
      exact h
    · rw [Option.not_isSome_iff_eq_none] at hfind
      have hnotmem : payload.id ∉ s.items.map (fun item => item.id) := by
        intro hmem
        rcases List.mem_map.mp hmem with ⟨item, hitem, hid⟩
        have := List.find?_eq_none.mp hfind item hitem
        simp [hid] at this
      simp only [hfind, Option.isSome_none, Bool.false_eq_true, if_false, List.map_append]
      exact List.Nodup.append h (List.nodup_singleton _)
        (by simpa [List.disjoint_singleton] using hnotmem)
  | remove id =>
    simp only [applyCartAction, removeFromCart]
    by_cases hfind : (s.items.find? (fun item => item.id == id)).isSome
    · simpa [hfind] using nodup_ids_filter _ h
    · simpa [hfind] using h
  | update id q =>
    simp only [applyCartAction, updateQuantity]
    by_cases hq : q ≤ 0
    · simpa [hq] using nodup_ids_filter _ h
    · rw [if_neg hq,
        updateFirst_map_key (p := fun item : CartItem => item.id == id)
          (f := fun item : CartItem => { item with quantity := q })
          (fun item : CartItem => item.id) (fun _ _ => rfl)]
      exact h
  | clear =>
    simp [applyCartAction, clearCart]

theorem nodup_ids_foldl_cartActions (acts : List CartAction) (s : CartState)
    (h : (s.items.map (fun item => item.id)).Nodup) :
    (((acts.foldl (fun st a => applyCartAction a st) s)).items.map
      (fun item => item.id)).Nodup := by
  induction acts generalizing s with
  | nil => exact h
  | cons a rest ih => exact ih _ (nodup_ids_applyCartAction a s h)

theorem sortByCreatedAtDesc_perm (orders : List Order) :
    (sortByCreatedAtDesc orders).Perm orders :=
  List.perm_insertionSort laterFirst orders

theorem sortByCreatedAtDesc_sorted (orders : List Order) :
    List.Sorted laterFirst (sortByCreatedAtDesc orders) :=
  List.sorted_insertionSort laterFirst orders

/-- Every cart reducer stores `calculateTotal` of the items it leaves in
the state, which equals the map-sum of `price × quantity`. -/
theorem total_eq_sum_after_action (a : CartAction) (s : CartState) :
    (applyCartAction a s).total =
      ((applyCartAction a s).items.map (fun item => item.price * item.quantity)).sum := by
  rw [← calculateTotal_eq_sum]
  cases a <;>
    simp [applyCartAction, addToCart, removeFromCart, updateQuantity, clearCart, calculateTotal]

/-!  ### Claim theorems -/

/-- C4: after every cart operation (hence after each step of any sequence
of `addToCart` / `removeFromCart` / `updateQuantity` / `clearCart`
dispatches), the stored `total` equals the exact sum of
`unitPrice × quantity` over the current lines. -/
theorem claim_C4_total_recomputed (a : CartAction) (s : CartState) :
    (applyCartAction a s).total =
      ((applyCartAction a s).items.map (fun item => item.price * item.quantity)).sum :=
  total_eq_sum_after_action a s

/-- C6: dispatching `updateQuantity` with quantity 0 produces exactly the
same cart state (lines and total) as dispatching `removeFromCart`, for
every cart state and product id, present in the cart or not. -/
theorem claim_C6_setQuantity_zero_eq_remove (id : Nat) (s : CartState) :
    updateQuantity id 0 s = removeFromCart id s := by
  unfold updateQuantity removeFromCart
  by_cases hfind : (s.items.find? (fun item => item.id == id)).isSome
  · simp [hfind]
  · rw [Option.not_isSome_iff_eq_none] at hfind
    have hself : s.items.filter (fun item => item.id != id) = s.items := by
      apply List.filter_eq_self.mpr
      intro item hmem
      have hne := List.find?_eq_none.mp hfind item hmem
      simp only [Bool.not_eq_true] at hne
      simp only [bne_iff_ne, ne_eq]
      intro h
      rw [h] at hne
      simp at hne
    simp [hfind, hself]

/-- C10: when the cart slice is hydrated from `localStorage` with a stored
line sequence, `items` is the stored sequence but `total` is initialized
to the literal 0; only after the first dispatched mutation does `total`
equal the sum of `price × quantity` over the lines.  The last conjunct
exhibits a hydrated state whose stored total (0) differs from the sum
over its lines (50). -/
theorem claim_C10_hydrated_total_zero (stored : List CartItem) (a : CartAction) :
    (cartInitialState (some stored)).items = stored ∧
    (cartInitialState (some stored)).total = 0 ∧
    (applyCartAction a (cartInitialState (some stored))).total =
      ((applyCartAction a (cartInitialState (some stored))).items.map
        (fun item => item.price * item.quantity)).sum ∧
    (cartInitialState (some [⟨1, "ring", 25, 2, "img", 0⟩])).total ≠
      ((cartInitialState (some [⟨1, "ring", 25, 2, "img", 0⟩])).items.map
        (fun item => item.price * item.quantity)).sum :=
  ⟨rfl, rfl, total_eq_sum_after_action a _, by decide⟩

/-- C9: `selectOrderStats` reports the collection size, the count of
orders in each of the five statuses, and `totalRevenue` equal to the sum
of `total` over all non-cancelled orders; on the spec's example — totals
70 / 30 / 50 with statuses pending / cancelled / delivered — it reports
`totalRevenue = 120`. -/
theorem claim_C9_order_stats (orders : List Order) :
    (selectOrderStats orders).total = orders.length ∧
    (selectOrderStats orders).pending = orders.countP (fun o => o.status == "pending") ∧
    (selectOrderStats orders).processing = orders.countP (fun o => o.status == "processing") ∧
    (selectOrderStats orders).shipped = orders.countP (fun o => o.status == "shipped") ∧
    (selectOrderStats orders).delivered = orders.countP (fun o => o.status == "delivered") ∧
    (selectOrderStats orders).cancelled = orders.countP (fun o => o.status == "cancelled") ∧
    (selectOrderStats orders).totalRevenue =
      ((orders.filter (fun o => o.status != "cancelled")).map (fun o => o.total)).sum ∧
    (selectOrderStats
      [⟨1, 1, [], 65, 5, 70, 3, "pending", none, none, none⟩,
       ⟨2, 1, [], 25, 5, 30, 2, "cancelled", none, none, none⟩,
       ⟨3, 2, [], 45, 5, 50, 1, "delivered", none, none, none⟩]).totalRevenue = 120 := by
  refine ⟨rfl, (List.countP_eq_length_filter _ _).symm, (List.countP_eq_length_filter _ _).symm,
    (List.countP_eq_length_filter _ _).symm, (List.countP_eq_length_filter _ _).symm,
    (List.countP_eq_length_filter _ _).symm, ?_, by decide⟩
  simpa [selectOrderStats] using
    foldl_add_eq_sum (fun o : Order => o.total) (orders.filter (fun o => o.status != "cancelled")) 0

/-- C5: `addToCart` for a product id already present never creates a
second line — the multiset of product ids (and hence the number of lines)
is unchanged — but increments the matching line's quantity by the payload
quantity (`resolveQuantity`, which defaults to 1 when no quantity is
given); consequently every cart state reachable by dispatching cart
actions from a state with distinct product ids (in particular the empty
initial cart) keeps at most one line per distinct product id. -/
theorem claim_C5_addLine_merges (now : Nat) (payload : AddPayload) (s : CartState)
    (x : CartItem)
    (hx : s.items.find? (fun item => item.id == payload.id) = some x)
    (acts : List CartAction) (s0 : CartState)
    (h0 : (s0.items.map (fun item => item.id)).Nodup) :
    (addToCart now payload s).items.map (fun item => item.id) =
        s.items.map (fun item => item.id) ∧
    (addToCart now payload s).items.length = s.items.length ∧
    (addToCart now payload s).items.find? (fun item => item.id == payload.id) =
        some { x with quantity := x.quantity + resolveQuantity payload.quantity } ∧
    resolveQuantity none = 1 ∧
    ((acts.foldl (fun st a => applyCartAction a st) s0).items.map
        (fun item => item.id)).Nodup := by
  have hsome : (s.items.find? (fun item => item.id == payload.id)).isSome := by
    rw [hx]; rfl
  have hpx := List.find?_some (p := fun item : CartItem => item.id == payload.id) hx
  have hitems : (addToCart now payload s).items =
      updateFirst (fun item => item.id == payload.id)
        (fun item => { item with quantity := item.quantity + resolveQuantity payload.quantity })
        s.items := by
    simp [addToCart, hsome]
  refine ⟨?_, ?_, ?_, rfl, nodup_ids_foldl_cartActions acts s0 h0⟩
  · rw [hitems,
      updateFirst_map_key (p := fun item : CartItem => item.id == payload.id)
        (f := fun item : CartItem =>
          { item with quantity := item.quantity + resolveQuantity payload.quantity })
        (fun item : CartItem => item.id) (fun _ _ => rfl)]
  · have hmap := updateFirst_map_key (p := fun item : CartItem => item.id == payload.id)
      (f := fun item : CartItem =>
        { item with quantity := item.quantity + resolveQuantity payload.quantity })
      (fun item : CartItem => item.id) (fun _ _ => rfl) s.items
    have := congrArg List.length hmap
    simpa [hitems] using this
  · rw [hitems]
    exact find?_updateFirst hx hpx

/-- Witness for C5: adding product 1 (already in the cart, default
quantity) merges into the existing line; a concrete action sequence from
the empty cart keeps product ids distinct. -/
theorem claim_C5_witness :
    ((⟨[⟨1, "ring", 25, 1, "u", 0⟩], 25⟩ : CartState).items.find?
        (fun item => item.id == (⟨1, "ring", 25, "u", none⟩ : AddPayload).id) =
      some (⟨1, "ring", 25, 1, "u", 0⟩ : CartItem)) ∧
    (((⟨[], 0⟩ : CartState).items.map (fun item => item.id)).Nodup) ∧
    ((addToCart 0 ⟨1, "ring", 25, "u", none⟩
        (⟨[⟨1, "ring", 25, 1, "u", 0⟩], 25⟩ : CartState)).items.map
          (fun item => item.id) =
        (⟨[⟨1, "ring", 25, 1, "u", 0⟩], 25⟩ : CartState).items.map (fun item => item.id) ∧
      (addToCart 0 ⟨1, "ring", 25, "u", none⟩
        (⟨[⟨1, "ring", 25, 1, "u", 0⟩], 25⟩ : CartState)).items.length =
        (⟨[⟨1, "ring", 25, 1, "u", 0⟩], 25⟩ : CartState).items.length ∧
      (addToCart 0 ⟨1, "ring", 25, "u", none⟩
        (⟨[⟨1, "ring", 25, 1, "u", 0⟩], 25⟩ : CartState)).items.find?
          (fun item => item.id == (⟨1, "ring", 25, "u", none⟩ : AddPayload).id) =
        some { (⟨1, "ring", 25, 1, "u", 0⟩ : CartItem) with
          quantity := (⟨1, "ring", 25, 1, "u", 0⟩ : CartItem).quantity +
            resolveQuantity (⟨1, "ring", 25, "u", none⟩ : AddPayload).quantity } ∧
      resolveQuantity none = 1 ∧
      ((([CartAction.add 5 ⟨2, "bracelet", 15, "v", some 1⟩,
          CartAction.remove 1]).foldl (fun st a => applyCartAction a st)
            (⟨[], 0⟩ : CartState)).items.map (fun item => item.id)).Nodup) :=
  ⟨by decide, by decide,
    claim_C5_addLine_merges 0 ⟨1, "ring", 25, "u", none⟩
      (⟨[⟨1, "ring", 25, 1, "u", 0⟩], 25⟩ : CartState) (⟨1, "ring", 25, 1, "u", 0⟩ : CartItem)
      (by decide)
      [CartAction.add 5 ⟨2, "bracelet", 15, "v", some 1⟩, CartAction.remove 1]
      (⟨[], 0⟩ : CartState) (by decide)⟩

/-- C8: `selectUserOrders` returns exactly the orders whose `userId`
matches — as a permutation of the matching sublist, with membership
characterized accordingly — arranged most-recent-first by `createdAt`;
being a pure function of the orders array, it mutates nothing. -/
theorem claim_C8_orders_for_user (uid : Nat) (orders : List Order) :
    (selectUserOrders uid orders).Perm (orders.filter (fun o => o.userId == uid)) ∧
    (∀ o, o ∈ selectUserOrders uid orders ↔ o ∈ orders ∧ o.userId = uid) ∧
    List.Sorted laterFirst (selectUserOrders uid orders) := by
  refine ⟨sortByCreatedAtDesc_perm _, ?_, sortByCreatedAtDesc_sorted _⟩
  intro o
  unfold selectUserOrders
  rw [(sortByCreatedAtDesc_perm _).mem_iff, List.mem_filter]
  simp

/-- C1: for every order whose current status is one of the five known
statuses, a requested status not listed for it in the transition table
(in particular any transition out of `delivered` or `cancelled`, and
`pending → shipped`) makes `updateOrderStatus` take the
invalid-transition branch and leave the whole orders collection — the
order's status and every other field — unchanged. -/
theorem claim_C1_invalid_transition_rejected (now orderId : Nat) (newStatus : String)
    (orders : List Order) (order : Order)
    (hfind : orders.find? (fun o => o.id == orderId) = some order)
    (hknown : order.status ∈ ["pending", "processing", "shipped", "delivered", "cancelled"])
    (hnot : newStatus ∉ (validTransitions order.status).getD []) :
    updateOrderStatus now orderId newStatus orders = (orders, UpdateResult.invalidTransition) := by
  have hmem : order.status = "pending" ∨ order.status = "processing" ∨
      order.status = "shipped" ∨ order.status = "delivered" ∨
      order.status = "cancelled" := by simpa using hknown
  have hvt : ∃ allowed, validTransitions order.status = some allowed := by
    rcases hmem with h | h | h | h | h <;> rw [h] <;> exact ⟨_, rfl⟩
  rcases hvt with ⟨allowed, hallowed⟩
  have hdec : decide (newStatus ∈ allowed) = false := by
    apply decide_eq_false
    intro hmem'
    apply hnot
    rw [hallowed]
    exact hmem'
  unfold updateOrderStatus
  rw [hfind]
  simp [hallowed, hdec]

/-- Witness for C1: a single delivered order; the transition
`delivered → processing` is rejected and the collection is unchanged. -/
theorem claim_C1_witness :
    ([(⟨1, 1, [], 65, 5, 70, 10, "delivered", none, none, none⟩ : Order)].find?
        (fun o => o.id == 1) =
      some (⟨1, 1, [], 65, 5, 70, 10, "delivered", none, none, none⟩ : Order)) ∧
    ((⟨1, 1, [], 65, 5, 70, 10, "delivered", none, none, none⟩ : Order).status ∈
      ["pending", "processing", "shipped", "delivered", "cancelled"]) ∧
    ("processing" ∉
      (validTransitions
        (⟨1, 1, [], 65, 5, 70, 10, "delivered", none, none, none⟩ : Order).status).getD []) ∧
    updateOrderStatus 20 1 "processing"
        [(⟨1, 1, [], 65, 5, 70, 10, "delivered", none, none, none⟩ : Order)] =
      ([(⟨1, 1, [], 65, 5, 70, 10, "delivered", none, none, none⟩ : Order)],
        UpdateResult.invalidTransition) :=
  ⟨by decide, by decide, by decide,
    claim_C1_invalid_transition_rejected 20 1 "processing"
      [(⟨1, 1, [], 65, 5, 70, 10, "delivered", none, none, none⟩ : Order)]
      (⟨1, 1, [], 65, 5, 70, 10, "delivered", none, none, none⟩ : Order)
      (by decide) (by decide) (by decide)⟩

/-- C7: on a legal transition `updateOrderStatus` reports the updated
branch, and the stored order now has the new `status`, `updatedAt = now`,
`shippedAt = now` exactly when entering `shipped` (otherwise untouched),
`deliveredAt = now` exactly when entering `delivered` (otherwise
untouched), while `items`, `subtotal`, `total`, `userId` (the owner) and
`createdAt` are unchanged. -/
theorem claim_C7_legal_transition_updates (now orderId : Nat) (newStatus : String)
    (orders : List Order) (order : Order)
    (hfind : orders.find? (fun o => o.id == orderId) = some order)
    (hlegal : newStatus ∈ (validTransitions order.status).getD []) :
    (updateOrderStatus now orderId newStatus orders).2 = UpdateResult.updated ∧
    ∃ updated,
      (updateOrderStatus now orderId newStatus orders).1.find?
          (fun o => o.id == orderId) = some updated ∧
      updated.status = newStatus ∧
      updated.updatedAt = some now ∧
      (newStatus = "shipped" → updated.shippedAt = some now) ∧
      (newStatus = "delivered" → updated.deliveredAt = some now) ∧
      (newStatus ≠ "shipped" → updated.shippedAt = order.shippedAt) ∧
      (newStatus ≠ "delivered" → updated.deliveredAt = order.deliveredAt) ∧
      updated.items = order.items ∧
      updated.subtotal = order.subtotal ∧
      updated.total = order.total ∧
      updated.userId = order.userId ∧
      updated.createdAt = order.createdAt := by
  have hvt : ∃ allowed, validTransitions order.status = some allowed ∧ newStatus ∈ allowed := by
    cases h : validTransitions order.status with
    | none => rw [h] at hlegal; simp at hlegal
    | some allowed => rw [h] at hlegal; exact ⟨allowed, rfl, hlegal⟩
  rcases hvt with ⟨allowed, hallowed, hmem⟩
  have hdec : decide (newStatus ∈ allowed) = true := decide_eq_true hmem
  have hporder := List.find?_some (p := fun o : Order => o.id == orderId) hfind
  have hres : updateOrderStatus now orderId newStatus orders =
      (updateFirst (fun o => o.id == orderId)
        (fun _ => updOrder now newStatus order) orders, UpdateResult.updated) := by
    unfold updateOrderStatus
    rw [hfind]
    simp [hallowed, hdec]
  have hid : (updOrder now newStatus order).id = order.id := by
    unfold updOrder
    by_cases hs : newStatus = "shipped"
    · simp [hs]
    · by_cases hd : newStatus = "delivered" <;> simp [hs, hd]
  have hpupd : (fun o : Order => o.id == orderId) (updOrder now newStatus order) = true := by
    simpa [hid] using hporder
  refine ⟨by rw [hres], updOrder now newStatus order, ?_, ?_, ?_, ?_, ?_, ?_, ?_, ?_, ?_, ?_, ?_, ?_⟩
  · rw [hres]
    exact find?_updateFirst hfind hpupd
  all_goals
    unfold updOrder
    by_cases hs : newStatus = "shipped" <;> by_cases hd : newStatus = "delivered" <;>
      simp_all

/-- Witness for C7: a pending order legally moves to `processing`. -/
theorem claim_C7_witness :
    ([(⟨1, 1, [], 65, 5, 70, 10, "pending", none, none, none⟩ : Order)].find?
        (fun o => o.id == 1) =
      some (⟨1, 1, [], 65, 5, 70, 10, "pending", none, none, none⟩ : Order)) ∧
    ("processing" ∈
      (validTransitions
        (⟨1, 1, [], 65, 5, 70, 10, "pending", none, none, none⟩ : Order).status).getD []) ∧
    ((updateOrderStatus 20 1 "processing"
        [(⟨1, 1, [], 65, 5, 70, 10, "pending", none, none, none⟩ : Order)]).2 =
      UpdateResult.updated ∧
    ∃ updated,
      (updateOrderStatus 20 1 "processing"
          [(⟨1, 1, [], 65, 5, 70, 10, "pending", none, none, none⟩ : Order)]).1.find?
          (fun o => o.id == 1) = some updated ∧
      updated.status = "processing" ∧
      updated.updatedAt = some 20 ∧
      ("processing" = "shipped" → updated.shippedAt = some 20) ∧
      ("processing" = "delivered" → updated.deliveredAt = some 20) ∧
      ("processing" ≠ "shipped" → updated.shippedAt =
        (⟨1, 1, [], 65, 5, 70, 10, "pending", none, none, none⟩ : Order).shippedAt) ∧
      ("processing" ≠ "delivered" → updated.deliveredAt =
        (⟨1, 1, [], 65, 5, 70, 10, "pending", none, none, none⟩ : Order).deliveredAt) ∧
      updated.items = (⟨1, 1, [], 65, 5, 70, 10, "pending", none, none, none⟩ : Order).items ∧
      updated.subtotal = 65 ∧
      updated.total = 70 ∧
      updated.userId = 1 ∧
      updated.createdAt = 10) :=
  ⟨by decide, by decide,
    claim_C7_legal_transition_updates 20 1 "processing"
      [(⟨1, 1, [], 65, 5, 70, 10, "pending", none, none, none⟩ : Order)]
      (⟨1, 1, [], 65, 5, 70, 10, "pending", none, none, none⟩ : Order)
      (by decide) (by decide)⟩

/-- C3: `handleCheckout` with a logged-in user but an empty cart stops at
the empty-cart guard: the whole application state — in particular the
order collection — is returned unchanged and no order is created. -/
theorem claim_C3_empty_cart_rejected (now uid : Nat) (s : AppState)
    (h : s.cart.items = []) :
    handleCheckout now (some uid) s = (s, CheckoutResult.emptyCart) := by
  unfold handleCheckout
  simp [h]

/-- Witness for C3: checkout on the empty cart with no prior orders. -/
theorem claim_C3_witness :
    ((⟨⟨[], 0⟩, []⟩ : AppState).cart.items = []) ∧
    handleCheckout 1000 (some 1) (⟨⟨[], 0⟩, []⟩ : AppState) =
      ((⟨⟨[], 0⟩, []⟩ : AppState), CheckoutResult.emptyCart) :=
  ⟨rfl, claim_C3_empty_cart_rejected 1000 1 ⟨⟨[], 0⟩, []⟩ rfl⟩

/-- C2: `handleCheckout` on a non-empty cart with a resolved user creates
exactly one order — `subtotal` is the sum of `price × quantity` over the
cart's lines, `total = subtotal + 5` (the shipping cost), status
`"pending"`, `createdAt = now`, `items` the pre-checkout cart lines —
after which `selectUserOrders` for that user contains the new order
exactly once and the cart is empty with total 0.  The freshness
hypothesis says the `Date.now()` order id does not collide with an
existing order. -/
theorem claim_C2_checkout_creates_order (now uid : Nat) (s : AppState)
    (hne : s.cart.items ≠ [])
    (hfresh : ∀ o ∈ s.orders, o.id ≠ now) :
    ∃ order : Order,
      (handleCheckout now (some uid) s).2 = CheckoutResult.placed order ∧
      order.subtotal = (s.cart.items.map (fun item => item.price * item.quantity)).sum ∧
      order.shippingCost = 5 ∧
      order.total = order.subtotal + 5 ∧
      order.status = "pending" ∧
      order.createdAt = now ∧
      order.userId = uid ∧
      order.items = s.cart.items ∧
      (handleCheckout now (some uid) s).1.orders.length = s.orders.length + 1 ∧
      (selectUserOrders uid (handleCheckout now (some uid) s).1.orders).count order = 1 ∧
      (handleCheckout now (some uid) s).1.cart.items = [] ∧
      (handleCheckout now (some uid) s).1.cart.total = 0 := by
  have hlen : ¬ s.cart.items.length = 0 := by
    simpa [List.length_eq_zero] using hne
  refine ⟨⟨now, uid, s.cart.items,
    s.cart.items.foldl (fun acc item => acc + item.price * item.quantity) 0, 5,
    s.cart.items.foldl (fun acc item => acc + item.price * item.quantity) 0 + 5,
    now, "pending", none, none, none⟩, ?_⟩
  set theOrder : Order := ⟨now, uid, s.cart.items,
    s.cart.items.foldl (fun acc item => acc + item.price * item.quantity) 0, 5,
    s.cart.items.foldl (fun acc item => acc + item.price * item.quantity) 0 + 5,
    now, "pending", none, none, none⟩ with htheOrder
  have hck : handleCheckout now (some uid) s =
      (⟨⟨[], 0⟩, sortByCreatedAtDesc (s.orders ++ [theOrder])⟩,
        CheckoutResult.placed theOrder) := by
    unfold handleCheckout
    dsimp only
    rw [if_neg hlen]
    rfl
  have hnotmem : theOrder ∉ s.orders := by
    intro hmem
    exact hfresh theOrder hmem rfl
  have hcount : (selectUserOrders uid
      (sortByCreatedAtDesc (s.orders ++ [theOrder]))).count theOrder = 1 := by
    unfold selectUserOrders
    rw [(sortByCreatedAtDesc_perm _).count_eq theOrder,
      (((sortByCreatedAtDesc_perm (s.orders ++ [theOrder]))).filter
        (fun o => o.userId == uid)).count_eq theOrder,
      List.filter_append, List.count_append]
    have hzero : (s.orders.filter (fun o => o.userId == uid)).count theOrder = 0 := by
      rw [List.count_eq_zero]
      intro hmem
      exact hnotmem (List.mem_of_mem_filter hmem)
    have hone : (([theOrder] : List Order).filter (fun o => o.userId == uid)).count
        theOrder = 1 := by
      simp [List.filter, htheOrder]
    rw [hzero, hone]
  rw [hck]
  refine ⟨rfl, ?_, rfl, rfl, rfl, rfl, rfl, rfl, ?_, hcount, rfl, rfl⟩
  · simpa using
      foldl_add_eq_sum (fun item : CartItem => item.price * item.quantity) s.cart.items 0
  · rw [(sortByCreatedAtDesc_perm _).length_eq]
    simp

/-- Witness for C2: the spec's example cart — two lines 25×2 and 15×1 —
checked out by user 1 at time 1000 against an empty order collection. -/
theorem claim_C2_witness :
    ((⟨⟨[⟨1, "collana", 25, 2, "u1", 0⟩, ⟨2, "bracciale", 15, 1, "u2", 0⟩], 65⟩,
        []⟩ : AppState).cart.items ≠ []) ∧
    (∀ o ∈ (⟨⟨[⟨1, "collana", 25, 2, "u1", 0⟩, ⟨2, "bracciale", 15, 1, "u2", 0⟩], 65⟩,
        []⟩ : AppState).orders, o.id ≠ 1000) ∧
    (∃ order : Order,
      (handleCheckout 1000 (some 7)
        (⟨⟨[⟨1, "collana", 25, 2, "u1", 0⟩, ⟨2, "bracciale", 15, 1, "u2", 0⟩], 65⟩,
          []⟩ : AppState)).2 = CheckoutResult.placed order ∧
      order.subtotal =
        (((⟨⟨[⟨1, "collana", 25, 2, "u1", 0⟩, ⟨2, "bracciale", 15, 1, "u2", 0⟩], 65⟩,
          []⟩ : AppState)).cart.items.map (fun item => item.price * item.quantity)).sum ∧
      order.shippingCost = 5 ∧
      order.total = order.subtotal + 5 ∧
      order.status = "pending" ∧
      order.createdAt = 1000 ∧
      order.userId = 7 ∧
      order.items =
        ((⟨⟨[⟨1, "collana", 25, 2, "u1", 0⟩, ⟨2, "bracciale", 15, 1, "u2", 0⟩], 65⟩,
          []⟩ : AppState)).cart.items ∧
      (handleCheckout 1000 (some 7)
        (⟨⟨[⟨1, "collana", 25, 2, "u1", 0⟩, ⟨2, "bracciale", 15, 1, "u2", 0⟩], 65⟩,
          []⟩ : AppState)).1.orders.length =
        ((⟨⟨[⟨1, "collana", 25, 2, "u1", 0⟩, ⟨2, "bracciale", 15, 1, "u2", 0⟩], 65⟩,
          []⟩ : AppState)).orders.length + 1 ∧
      (selectUserOrders 7 (handleCheckout 1000 (some 7)
        (⟨⟨[⟨1, "collana", 25, 2, "u1", 0⟩, ⟨2, "bracciale", 15, 1, "u2", 0⟩], 65⟩,
          []⟩ : AppState)).1.orders).count order = 1 ∧
      (handleCheckout 1000 (some 7)
        (⟨⟨[⟨1, "collana", 25, 2, "u1", 0⟩, ⟨2, "bracciale", 15, 1, "u2", 0⟩], 65⟩,
          []⟩ : AppState)).1.cart.items = [] ∧
      (handleCheckout 1000 (some 7)
        (⟨⟨[⟨1, "collana", 25, 2, "u1", 0⟩, ⟨2, "bracciale", 15, 1, "u2", 0⟩], 65⟩,
          []⟩ : AppState)).1.cart.total = 0) :=
  ⟨by decide, by decide,
    claim_C2_checkout_creates_order 1000 7
      (⟨⟨[⟨1, "collana", 25, 2, "u1", 0⟩, ⟨2, "bracciale", 15, 1, "u2", 0⟩], 65⟩,
        []⟩ : AppState)
      (by decide) (by decide)⟩

end Shop
